import Mathlib

/-!
Shallow embedding of the slackscope CLI core (src/slack_cli) in Lean 4,
covering the transport retry loop, cursor pagination, target resolution and
payload normalization, together with theorems settling the frozen claims.

Modelling conventions:
* Python `str` is `String`; `dict.get(k)` fields are `Option`-typed.
* Python truthiness of strings (`x or d`) is modelled explicitly: `None` and
  `""` are falsy.
* Python `float` values reached by this code are exact: timestamps are parsed
  from decimal literals and file sizes are only ever divided by 1024 (a binary
  exponent shift, exact in IEEE doubles as long as no over/underflow occurs).
  They are therefore embedded as unnormalized fractions `PyNum` with an
  integer numerator and positive natural denominator.
* Network traffic is explicit data: a transport call consumes a list of
  attempt outcomes, and paginated endpoints are functions from a cursor to a
  page.  Functions that perform HTTP requests return the number of requests
  made alongside their result, so that "performs zero network calls" is a
  statement about the model.
-/

/-- Python `str.strip` whitespace set restricted to the ASCII characters
(space, tab, newline, carriage return, vertical tab, form feed). -/
def py_is_space (c : Char) : Bool :=
  c == ' ' || c == '\t' || c == '\n' || c == '\r' || c == '\x0b' || c == '\x0c'

/-- Python `str.strip` on a character list: drop whitespace from both ends. -/
def pstrip_list (l : List Char) : List Char :=
  ((l.dropWhile py_is_space).reverse.dropWhile py_is_space).reverse

/-- Python `str.strip`. -/
def pstrip (s : String) : String := ⟨pstrip_list s.data⟩

/-- Python `str.lower` (ASCII letters; the identifiers and names handled by
the resolver are ASCII). -/
def py_lower (s : String) : String := ⟨s.data.map Char.toLower⟩

/-- Python `x or ""` for an optional string `x` (both `None` and `""` give `""`). -/
def or_empty : Option String → String
  | some s => s
  | none => ""

/-- Python `x or d` for an optional string `x` and default `d`:
`None` and `""` are falsy. -/
def or_str : Option String → String → String
  | some s, d => if s = "" then d else s
  | none, d => d

/-- Python truthiness of an optional string. -/
def str_truthy : Option String → Bool
  | some s => s != ""
  | none => false

/-- Python `a or b` keeping the optional value (used for `name or id`). -/
def py_or_opt (a b : Option String) : Option String :=
  if str_truthy a then a else b

/-- Python f-string rendering of a possibly-`None` string (`None` prints as
`"None"`). -/
def py_display : Option String → String
  | some s => s
  | none => "None"

/-- Python `repr` of a target string as interpolated by `{target!r}`
(the targets in this development contain no quotes or escapes). -/
def py_repr (s : String) : String := "'" ++ s ++ "'"

/-- An exact Python float value, as an unnormalized fraction.  All floats
reached by the modelled code are decimal literals possibly divided by powers
of 1024, hence exactly representable. -/
structure PyNum where
  num : Int
  den : Nat
deriving DecidableEq, Repr

/-- Comparison `a <= b` of two fractions with positive denominators. -/
def pn_le (a b : PyNum) : Bool :=
  decide (a.num * (b.den : Int) ≤ b.num * (a.den : Int))

/-- Comparison `a < b` of two fractions with positive denominators. -/
def pn_lt (a b : PyNum) : Bool :=
  decide (a.num * (b.den : Int) < b.num * (a.den : Int))

/-- Numeric value of a digit list (most significant first). -/
def digits_to_nat (l : List Char) : Nat :=
  l.foldl (fun acc c => acc * 10 + (c.toNat - 48)) 0

/-- Parse an unsigned decimal literal: digits with an optional fractional
part, at least one digit overall (Python rejects `"."` and `""`). -/
def parse_dec_core (l : List Char) : Option PyNum :=
  let ip := l.takeWhile Char.isDigit
  let rest := l.dropWhile Char.isDigit
  match rest with
  | [] => if ip.isEmpty then none else some ⟨(digits_to_nat ip : Nat), 1⟩
  | '.' :: fp =>
      if fp.all Char.isDigit && !(ip.isEmpty && fp.isEmpty) then
        some ⟨(digits_to_nat ip * 10 ^ fp.length + digits_to_nat fp : Nat), 10 ^ fp.length⟩
      else none
  | _ => none

/-- Python `float(s)` restricted to the decimal-literal grammar that Slack
timestamps take (optional sign, digits, optional fraction; surrounding
whitespace stripped).  `none` models `ValueError`. -/
def py_float (s : String) : Option PyNum :=
  match pstrip_list s.data with
  | '+' :: r => parse_dec_core r
  | '-' :: r => (parse_dec_core r).map (fun p => ⟨-p.num, p.den⟩)
  | l => parse_dec_core l

/-- Python `float(x)` on an `Any` that is an optional string: `float(None)`
raises `TypeError`, modelled as `none`. -/
def py_float_opt : Option String → Option PyNum
  | some s => py_float s
  | none => none

/-! ### normalize.py -/

/-- An entry of a message block's `fields` array (src/slack_cli/normalize.py,
`_extract_block_text`); only its optional `text` string matters. -/
structure BlockField where
  text : Option String
deriving Repr

/-- The `text` object of a rich-text block (a dict whose `text` key may hold
a string). -/
structure BlockTextObj where
  text : Option String
deriving Repr

/-- A message block: an optional `text` object plus a `fields` array. -/
structure Block where
  text_obj : Option BlockTextObj
  fields : List BlockField
deriving Repr

/-- An attached file record as consumed by `_format_file_fallback`:
`title`, `name`, `pretty_type`, `filetype` and numeric `size`. -/
structure SlackFile where
  title : Option String
  name : Option String
  pretty_type : Option String
  filetype : Option String
  size : Option PyNum
deriving Repr

/-- A raw Slack message payload, with exactly the keys the normalizer reads. -/
structure Message where
  text : Option String
  blocks : List Block
  files : Option (List SlackFile)
  ts : Option String
  thread_ts : Option String
  reply_count : Option Nat
  user : Option String
  bot_id : Option String
  subtype : Option String
  edited : Bool
deriving Repr

/-- A raw user profile (src/slack_cli/resolve.py and normalize.py). -/
structure Profile where
  display_name : Option String
  real_name : Option String
deriving DecidableEq, Repr

/-- A raw user directory record. -/
structure User where
  id : Option String
  name : Option String
  profile : Option Profile
  deleted : Bool
deriving DecidableEq, Repr

/-- Integer truncation toward zero, Python `int(x)` on a float. -/
def pn_trunc (a : PyNum) : Int := Int.tdiv a.num (a.den : Int)

/-- Round to nearest integer, ties to even: the rounding of Python's
`format(x, '.0f')` on exactly-representable values. -/
def pn_round_half_even (a : PyNum) : Int :=
  let f := Int.fdiv a.num (a.den : Int)
  let r2 := 2 * (a.num - f * (a.den : Int))
  if r2 < (a.den : Int) then f
  else if (a.den : Int) < r2 then f + 1
  else if f % 2 = 0 then f else f + 1

/-- Render with one decimal digit, Python `f"{x:.1f}"` (nonnegative inputs,
which is all `_human_bytes` produces). -/
def pn_fmt_one_dec (a : PyNum) : String :=
  let n := pn_round_half_even ⟨a.num * 10, a.den⟩
  toString (Int.tdiv n 10) ++ "." ++ toString (Int.emod n 10)

/-- The byte-size unit ladder of `_human_bytes`. -/
def unit_name : Nat → String
  | 0 => "B"
  | 1 => "KB"
  | 2 => "MB"
  | 3 => "GB"
  | _ => "TB"

/-- The division loop of `_human_bytes`: divide by 1024 while the value is
at least 1024 and units remain (`index < len(units) - 1`, i.e. fuel 4). -/
def bytes_reduce : Nat → PyNum → Nat → PyNum × Nat
  | 0, v, i => (v, i)
  | fuel + 1, v, i =>
      if pn_le ⟨1024, 1⟩ v then bytes_reduce fuel ⟨v.num, v.den * 1024⟩ (i + 1)
      else (v, i)

/-- `_human_bytes` (src/slack_cli/normalize.py lines 99-111). -/
def human_bytes (size : PyNum) : String :=
  let vi := bytes_reduce 4 size 0
  let v := vi.1
  let i := vi.2
  if i = 0 then toString (pn_trunc v) ++ " " ++ unit_name i
  else if pn_le ⟨10, 1⟩ v then toString (pn_round_half_even v) ++ " " ++ unit_name i
  else pn_fmt_one_dec v ++ " " ++ unit_name i

/-- `_format_file_fallback` (src/slack_cli/normalize.py lines 76-96). -/
def format_file_fallback : Option (List SlackFile) → String
  | none => ""
  | some [] => ""
  | some (first :: rest) =>
      let title := or_str first.title (or_str first.name "file")
      let pretty := or_str first.pretty_type (or_str first.filetype "file")
      let size_label := match first.size with
        | some q => human_bytes q
        | none => ""
      let details := if size_label = "" then pretty else pretty ++ ", " ++ size_label
      let extra_count := rest.length
      let extra_suffix :=
        if extra_count = 0 then ""
        else " +" ++ toString extra_count ++ " more file" ++
          (if extra_count = 1 then "" else "s")
      "📎 " ++ title ++ " (" ++ details ++ ")" ++ extra_suffix

/-- `_extract_block_text` (src/slack_cli/normalize.py lines 60-73). -/
def extract_block_text (b : Block) : String :=
  let pieces := b.fields.filterMap (fun f => f.text)
  match b.text_obj with
  | some t =>
      match t.text with
      | some v => v
      | none => String.intercalate " " pieces
  | none => String.intercalate " " pieces

/-- Python truthiness of `isinstance(text, str) and text.strip()`. -/
def text_truthy : Option String → Bool
  | some s => pstrip s != ""
  | none => false

/-- `extract_message_text` (src/slack_cli/normalize.py lines 34-57). -/
def extract_message_text (m : Message) : String :=
  let attachment := format_file_fallback m.files
  if text_truthy m.text then
    let t := or_empty m.text
    if attachment = "" then t else t ++ "\n" ++ attachment
  else
    let block_text := (m.blocks.map extract_block_text).filter (fun s => s ≠ "")
    if block_text.isEmpty then attachment
    else
      let body := String.intercalate "\n" block_text
      if attachment = "" then body else body ++ "\n" ++ attachment

/-- `user_label` (src/slack_cli/normalize.py lines 124-131). -/
def user_label (user_id : Option String) (users_map : List (String × User)) : String :=
  if str_truthy user_id then
    let uid := or_empty user_id
    match users_map.lookup uid with
    | none => "@" ++ uid
    | some u => "@" ++ or_str u.name uid
  else "@unknown"

/-- The normalized message record produced by `normalize_message`. -/
structure NormMessage where
  chat_id : String
  ts : String
  thread_ts : String
  author : String
  author_id : String
  text : String
  subtype : String
  reply_count : Nat
  is_thread_parent : Bool
  edited : Bool
deriving Repr

/-- `normalize_message` (src/slack_cli/normalize.py lines 196-222). -/
def normalize_message (m : Message) (chat_id : String)
    (users_map : List (String × User)) : NormMessage :=
  let ts := or_empty m.ts
  let thread_ts := or_str m.thread_ts ts
  let text := extract_message_text m
  let reply_count := m.reply_count.getD 0
  let author :=
    if !str_truthy m.user && str_truthy m.bot_id then "bot:" ++ or_empty m.bot_id
    else user_label m.user users_map
  { chat_id := chat_id
    ts := ts
    thread_ts := thread_ts
    author := author
    author_id := or_str m.user (or_str m.bot_id "")
    text := text
    subtype := or_str m.subtype ""
    reply_count := reply_count
    is_thread_parent := (reply_count != 0) && (ts == thread_ts)
    edited := m.edited }

/-! ### commands/chat.py: timestamp sort -/

/-- `_ts_as_float` (src/slack_cli/commands/chat.py lines 339-343): parse the
value as a float, defaulting to `0.0` on failure. -/
def ts_as_float (value : Option String) : PyNum :=
  (py_float_opt value).getD ⟨0, 1⟩

/-- Sort-key comparison used by `chat_history`: numeric timestamp order. -/
def ts_le (a b : NormMessage) : Bool :=
  pn_le (ts_as_float (some a.ts)) (ts_as_float (some b.ts))

/-- Stable insertion of a message into an already sorted list: a new element
goes after existing elements with an equal or smaller key, which is exactly
the output contract of Python's stable `list.sort`. -/
def insert_by_ts (m : NormMessage) : List NormMessage → List NormMessage
  | [] => [m]
  | x :: xs => if ts_le x m then x :: insert_by_ts m xs else m :: x :: xs

/-- Stable sort by numeric timestamp, modelling
`messages.sort(key=lambda item: _ts_as_float(item.get("ts")))`. -/
def sort_by_ts (l : List NormMessage) : List NormMessage :=
  l.foldl (fun acc m => insert_by_ts m acc) []

/-- The normalize-then-sort pipeline of `chat_history`
(src/slack_cli/commands/chat.py lines 200-203). -/
def chat_history_messages (raw : List Message) (conversation_id : String)
    (users_map : List (String × User)) : List NormMessage :=
  sort_by_ts (raw.map (fun msg => normalize_message msg conversation_id users_map))

/-- A message payload carrying only a timestamp (test fixture shape). -/
def ts_only_message (ts : String) : Message :=
  { text := none, blocks := [], files := none, ts := some ts, thread_ts := none
    reply_count := none, user := none, bot_id := none, subtype := none, edited := false }

/-! ### resolve.py and the client scan methods it uses -/

/-- Membership of `[A-Z0-9]`, the body charset of the ID regexes. -/
def id_body_char (c : Char) : Bool :=
  (decide (65 ≤ c.toNat) && decide (c.toNat ≤ 90)) ||
    (decide (48 ≤ c.toNat) && decide (c.toNat ≤ 57))

/-- `CONVERSATION_ID_RE = ^[CDG][A-Z0-9]+$` (src/slack_cli/resolve.py line 12). -/
def conversation_id_match (s : String) : Bool :=
  match s.data with
  | c :: r => (c == 'C' || c == 'D' || c == 'G') && !r.isEmpty && r.all id_body_char
  | [] => false

/-- `USER_ID_RE = ^U[A-Z0-9]+$` (src/slack_cli/resolve.py line 13). -/
def user_id_match (s : String) : Bool :=
  match s.data with
  | 'U' :: r => !r.isEmpty && r.all id_body_char
  | _ => false

/-- Python `s.startswith("@")`. -/
def starts_with_at (s : String) : Bool :=
  match s.data with
  | '@' :: _ => true
  | _ => false

/-- Python `s.startswith("D")` (the only shape check `resolve_dm_id` makes). -/
def starts_with_d (s : String) : Bool :=
  match s.data with
  | 'D' :: _ => true
  | _ => false

/-- Python `s.removeprefix("@")`. -/
def remove_at_sign (s : String) : String :=
  match s.data with
  | '@' :: r => ⟨r⟩
  | _ => s

/-- Python `s.removeprefix("#")`. -/
def remove_hash (s : String) : String :=
  match s.data with
  | '#' :: r => ⟨r⟩
  | _ => s

/-- A raw conversation record, with the keys read by the resolver:
`id`, `name`, `is_private` and (for DMs) the peer `user`. -/
structure Channel where
  id : Option String
  name : Option String
  is_private : Bool
  user : Option String
deriving DecidableEq, Repr

/-- One page of a conversations-list response: the `channels` array and
`response_metadata.next_cursor`. -/
structure ConvPage where
  channels : List Channel
  next_cursor : String
deriving Repr

/-- The client as the resolver sees it.  The full user directory is the list
`users.list` pagination would deliver (`users_all`, fetched once and cached);
`conv_server` and `dm_server` give the server's response to the
conversations-list endpoint, keyed by request cursor, for the channel-scan
parameters and for the `types=im` parameters respectively. -/
structure Client where
  users : List User
  conv_server : String → ConvPage
  dm_server : String → ConvPage

/-- A candidate entry built by `resolve_conversation_id` for an ambiguous
target: id, display name and kind (dict keys `id`, `name`, `type`). -/
structure ConvCandidate where
  id : Option String
  name : String
  kind : String
deriving DecidableEq, Repr

/-- A candidate entry built by `resolve_user_id` for an ambiguous target
(dict keys `id`, `handle`, `name`). -/
structure UserCandidate where
  id : Option String
  handle : String
  name : String
deriving DecidableEq, Repr

/-- Errors raised by the resolver: `NotFoundError` and `AmbiguousTargetError`
(the latter split by the candidate record shape it carries). -/
inductive ResolveErr where
  | notFound (msg : String)
  | ambiguousUser (msg : String) (candidates : List UserCandidate)
  | ambiguousConv (msg : String) (candidates : List ConvCandidate)
deriving DecidableEq, Repr

/-- `(user.get("profile") or {}).get("display_name") or ""`, lowered. -/
def profile_display (u : User) : String :=
  match u.profile with
  | some p => or_empty p.display_name
  | none => ""

/-- `(user.get("profile") or {}).get("real_name") or ""`. -/
def profile_real (u : User) : String :=
  match u.profile with
  | some p => or_empty p.real_name
  | none => ""

/-- The needle-vs-names test of `resolve_user_id`'s directory loop:
`needle in {handle, display, real_name}`, all lowercased. -/
def user_name_hit (needle : String) (u : User) : Bool :=
  needle == py_lower (or_empty u.name) ||
    needle == py_lower (profile_display u) ||
    needle == py_lower (profile_real u)

/-- The full per-user filter of the loop: deleted users are skipped
(`if user.get("deleted"): continue`), then the name test applies. -/
def user_matches (needle : String) (u : User) : Bool :=
  !u.deleted && user_name_hit needle u

/-- The candidate dict built per ambiguous user match. -/
def user_candidate (u : User) : UserCandidate :=
  { id := u.id, handle := "@" ++ py_display u.name, name := profile_real u }

/-- `resolve_user_id` (src/slack_cli/resolve.py lines 62-103).  The second
component counts network requests: the directory fetch (`users_all`, one
cached `users.list` scan) counts as one request. -/
def resolve_user_id (c : Client) (target : String) : Except ResolveErr String × Nat :=
  let raw := pstrip target
  if user_id_match raw then (.ok raw, 0)
  else
    let needle := pstrip (py_lower (remove_at_sign raw))
    if needle = "" then (.error (.notFound "User handle cannot be empty"), 0)
    else
      let exact := c.users.filter (user_matches needle)
      match exact with
      | [] => (.error (.notFound ("No user found for target: " ++ target)), 1)
      | [u] =>
          match u.id with
          | some i =>
              if i = "" then
                (.error (.notFound ("User found for " ++ target ++ " but missing ID")), 1)
              else (.ok i, 1)
          | none => (.error (.notFound ("User found for " ++ target ++ " but missing ID")), 1)
      | u :: v :: rest =>
          (.error (.ambiguousUser ("Multiple users match " ++ py_repr target ++ ". Use a user ID.")
            (((u :: v :: rest).take 8).map user_candidate)), 1)

/-- `(channel.get("name") or "").strip().lower()`, the per-channel key
compared against the needle in `find_conversations_by_name`. -/
def conv_name_key (ch : Channel) : String := py_lower (pstrip (or_empty ch.name))

/-- The channels of one page that exactly match the needle. -/
def conv_matches (needle : String) (chans : List Channel) : List Channel :=
  chans.filter (fun ch => conv_name_key ch == needle)

/-- The per-page channel loop of `find_conversations_by_name`: append each
exact match and return early (`true`) once `max_matches` is reached. -/
def scan_channels (needle : String) (max_matches : Nat) (acc : List Channel) :
    List Channel → List Channel × Bool
  | [] => (acc, false)
  | ch :: rest =>
      if conv_name_key ch == needle then
        if max_matches ≤ acc.length + 1 then (acc ++ [ch], true)
        else scan_channels needle max_matches (acc ++ [ch]) rest
      else scan_channels needle max_matches acc rest

/-- The page loop of `find_conversations_by_name`: follow cursors, stopping
on an empty cursor, a repeated cursor, or `page_count >= max_pages`.  The
fuel argument only bounds the recursion; `max_pages + 1` is always enough
because every iteration increments the page count.  The second component of
the result counts pages fetched (= network requests). -/
def find_conv_loop (server : String → ConvPage) (needle : String)
    (max_pages max_matches : Nat) :
    Nat → Nat → String → List String → List Channel → List Channel × Nat
  | 0, calls, _, _, found => (found, calls)
  | fuel + 1, calls, cursor, seen, found =>
      let page := server cursor
      match scan_channels needle max_matches found page.channels with
      | (ms, true) => (ms, calls + 1)
      | (ms, false) =>
          if page.next_cursor = "" then (ms, calls + 1)
          else if page.next_cursor ∈ seen then (ms, calls + 1)
          else if max_pages ≤ calls + 1 then (ms, calls + 1)
          else
            find_conv_loop server needle max_pages max_matches fuel (calls + 1)
              page.next_cursor (page.next_cursor :: seen) ms

/-- `find_conversations_by_name` (src/slack_cli/client.py lines 230-285),
with the conversation cache side effect omitted. -/
def find_conversations_by_name (c : Client) (name : String)
    (max_pages max_matches : Nat) : List Channel × Nat :=
  let needle := pstrip (py_lower name)
  if needle = "" then ([], 0)
  else find_conv_loop c.conv_server needle max_pages max_matches (max_pages + 1) 0 "" [] []

/-- The page loop of `find_dm_by_user_id`: return the first DM channel whose
`user` equals the wanted user id. -/
def find_dm_loop (server : String → ConvPage) (user_id : String) (max_pages : Nat) :
    Nat → Nat → String → List String → Option Channel × Nat
  | 0, calls, _, _ => (none, calls)
  | fuel + 1, calls, cursor, seen =>
      let page := server cursor
      match page.channels.find? (fun ch => ch.user == some user_id) with
      | some ch => (some ch, calls + 1)
      | none =>
          if page.next_cursor = "" then (none, calls + 1)
          else if page.next_cursor ∈ seen then (none, calls + 1)
          else if max_pages ≤ calls + 1 then (none, calls + 1)
          else
            find_dm_loop server user_id max_pages fuel (calls + 1)
              page.next_cursor (page.next_cursor :: seen)

/-- `find_dm_by_user_id` (src/slack_cli/client.py lines 287-330). -/
def find_dm_by_user_id (c : Client) (user_id : String) (max_pages : Nat) :
    Option Channel × Nat :=
  find_dm_loop c.dm_server user_id max_pages (max_pages + 1) 0 "" []

/-- `resolve_dm_id` (src/slack_cli/resolve.py lines 106-121). -/
def resolve_dm_id (c : Client) (target : String) : Except ResolveErr String × Nat :=
  let raw := pstrip target
  if starts_with_d raw then (.ok raw, 0)
  else
    let ur := resolve_user_id c raw
    match ur.1 with
    | .error e => (.error e, ur.2)
    | .ok uid =>
        let dm := find_dm_by_user_id c uid 20
        match dm.1 with
        | none =>
            (.error (.notFound ("No DM conversation found for user: " ++ target)), ur.2 + dm.2)
        | some ch =>
            match ch.id with
            | some i =>
                if i = "" then
                  (.error (.notFound ("DM found for " ++ target ++ " but missing ID")), ur.2 + dm.2)
                else (.ok i, ur.2 + dm.2)
            | none =>
                (.error (.notFound ("DM found for " ++ target ++ " but missing ID")), ur.2 + dm.2)

/-- The candidate dict built per ambiguous conversation match. -/
def conv_candidate (ch : Channel) : ConvCandidate :=
  { id := ch.id
    name := "#" ++ py_display (py_or_opt ch.name ch.id)
    kind := if ch.is_private then "private" else "channel" }

/-- `resolve_conversation_id` (src/slack_cli/resolve.py lines 16-59).  Note
the in-source constants: `max_pages=20`, `max_matches=2`; the `except
NotFoundError` around the DM fallback catches only `notFound`. -/
def resolve_conversation_id (c : Client) (target : String) :
    Except ResolveErr String × Nat :=
  let raw := pstrip target
  if conversation_id_match raw then (.ok raw, 0)
  else if starts_with_at raw then resolve_dm_id c raw
  else
    let needle := py_lower (pstrip (remove_hash raw))
    if needle = "" then (.error (.notFound "Conversation name cannot be empty"), 0)
    else
      let fr := find_conversations_by_name c needle 20 2
      match fr.1 with
      | [] =>
          let dr := resolve_dm_id c raw
          match dr.1 with
          | .ok i => (.ok i, fr.2 + dr.2)
          | .error (.notFound _) =>
              (.error (.notFound ("No conversation found for target: " ++ target)), fr.2 + dr.2)
          | .error e => (.error e, fr.2 + dr.2)
      | [ch] =>
          match ch.id with
          | some i =>
              if i = "" then
                (.error (.notFound ("Conversation found for " ++ target ++ " but missing ID")), fr.2)
              else (.ok i, fr.2)
          | none =>
              (.error (.notFound ("Conversation found for " ++ target ++ " but missing ID")), fr.2)
      | ch :: ch2 :: rest =>
          (.error (.ambiguousConv
            ("Multiple conversations match " ++ py_repr target ++ ". Use a conversation ID.")
            (((ch :: ch2 :: rest).take 8).map conv_candidate)), fr.2)

/-- The candidate count carried by an ambiguous-target result, if any. -/
def ambiguous_size : Except ResolveErr String → Option Nat
  | .error (.ambiguousUser _ cs) => some cs.length
  | .error (.ambiguousConv _ cs) => some cs.length
  | _ => none

/-! ### client.py transport: call and call_raw -/

/-- The parsed JSON envelope of a Slack response: the conventional `ok` flag
and the optional `error` code. -/
structure Envelope where
  ok : Bool
  error : Option String
deriving DecidableEq, Repr

/-- The outcome of one HTTP attempt inside `SlackClient.call`: a
network-level failure, or a response with a status code, a `Retry-After`
value (only ever used for sleeping) and a body that parses to an envelope
(`none` models invalid JSON). -/
inductive CallAttempt where
  | netErr
  | resp (status : Nat) (retry_after : Nat) (body : Option Envelope)
deriving Repr

/-- The classified result of `SlackClient.call`. -/
inductive CallOutcome where
  | network_error
  | http_error (method : String) (status : Nat)
  | invalid_json (method : String)
  | api_error (method : String) (code : String)
  | success (env : Envelope)
  | exhausted (method : String)
deriving DecidableEq, Repr

/-- The retry loop of `SlackClient.call` (src/slack_cli/client.py lines
56-100), consuming one scripted attempt outcome per iteration; sleeps are
irrelevant to the outcome and dropped.  An empty script (`exhausted`) models
falling off the end of the `for` loop, which a script of length
`max_retries - attempt + 1` never reaches. -/
def call (method : String) (max_retries : Nat) : Nat → List CallAttempt → CallOutcome
  | _, [] => .exhausted method
  | attempt, .netErr :: rest =>
      if attempt < max_retries then call method max_retries (attempt + 1) rest
      else .network_error
  | attempt, .resp status _ body :: rest =>
      if status = 429 ∧ attempt < max_retries then call method max_retries (attempt + 1) rest
      else if 500 ≤ status ∧ attempt < max_retries then call method max_retries (attempt + 1) rest
      else if 400 ≤ status then .http_error method status
      else
        match body with
        | none => .invalid_json method
        | some env =>
            if env.ok then .success env
            else .api_error method (env.error.getD "unknown_error")

/-- One HTTP attempt inside `SlackClient.call_raw`: the body is kept as raw
text, never parsed. -/
inductive RawAttempt where
  | netErr
  | resp (status : Nat) (retry_after : Nat) (body : String)
deriving Repr

/-- The result of `SlackClient.call_raw`. -/
inductive RawOutcome where
  | network_error
  | body (text : String)
  | exhausted (endpoint : String)
deriving DecidableEq, Repr

/-- The retry loop of `SlackClient.call_raw` (src/slack_cli/client.py lines
102-144): identical 429/5xx retry policy, but once a response is not
retried its text is returned unconditionally — there is no `>= 400` check. -/
def call_raw (endpoint : String) (max_retries : Nat) : Nat → List RawAttempt → RawOutcome
  | _, [] => .exhausted endpoint
  | attempt, .netErr :: rest =>
      if attempt < max_retries then call_raw endpoint max_retries (attempt + 1) rest
      else .network_error
  | attempt, .resp status _ txt :: rest =>
      if status = 429 ∧ attempt < max_retries then call_raw endpoint max_retries (attempt + 1) rest
      else if 500 ≤ status ∧ attempt < max_retries then call_raw endpoint max_retries (attempt + 1) rest
      else .body txt

/-- Whether a `call_raw` outcome is an error (raised) rather than a returned
result. -/
def raw_is_error : RawOutcome → Bool
  | .body _ => false
  | _ => true

/-! ### client.py paginator -/

/-- One page of a generic paginated endpoint: the item array under the
configured key, plus `response_metadata.next_cursor`. -/
structure PageResp (α : Type) where
  items : List α
  next_cursor : String

/-- The next cursor the server hands out when queried with cursor `c`. -/
def page_next {α : Type} (server : String → PageResp α) (c : String) : String :=
  (server c).next_cursor

/-- The cursor reached after `k` pages starting from cursor `c`. -/
def cursor_iter {α : Type} (server : String → PageResp α) : Nat → String → String
  | 0, c => c
  | k + 1, c => cursor_iter server k (page_next server c)

/-- The loop of `SlackClient._paginate` (src/slack_cli/client.py lines
146-173), with the lazily yielded items accumulated into a list.  The loop
has no intrinsic bound when `max_pages` is `none`, so the model takes fuel:
`none` means the fuel ran out before the loop stopped, i.e. the source loop
runs for more than `fuel` pages. -/
def paginate_from {α : Type} (server : String → PageResp α) (max_pages : Option Nat) :
    Nat → Nat → String → List String → List α → Option (List α)
  | 0, _, _, _, _ => none
  | fuel + 1, page_count, cursor, seen, acc =>
      let page := server cursor
      let acc2 := acc ++ page.items
      if page.next_cursor = "" then some acc2
      else if page.next_cursor ∈ seen then some acc2
      else
        match max_pages with
        | some mp =>
            if mp ≤ page_count + 1 then some acc2
            else
              paginate_from server max_pages fuel (page_count + 1) page.next_cursor
                (page.next_cursor :: seen) acc2
        | none =>
            paginate_from server max_pages fuel (page_count + 1) page.next_cursor
              (page.next_cursor :: seen) acc2

/-- `SlackClient._paginate` from the start of a scan, with the given fuel. -/
def paginate {α : Type} (server : String → PageResp α) (max_pages : Option Nat)
    (fuel : Nat) : Option (List α) :=
  paginate_from server max_pages fuel 0 "" [] []

/-! ### client.py snapshot unread fallback -/

/-- `_unread_fallback` (src/slack_cli/client.py lines 457-463): `1` when
both values parse as floats and the latest timestamp is strictly greater
than the last-read timestamp, else `0` — any `TypeError`/`ValueError` gives
`0`. -/
def unread_fallback (last_read latest_ts : Option String) : Int :=
  match py_float_opt latest_ts, py_float_opt last_read with
  | some l, some r => if pn_lt r l then 1 else 0
  | _, _ => 0

/-- The unread computation of `conversation_snapshot` (src/slack_cli/client.py
lines 363-370): `unread_count_display`, else `unread_count`, else the
fallback comparison (the write-back into the snapshot dict is omitted). -/
def snapshot_unread (unread_count_display unread_count : Option Int)
    (last_read latest_ts : Option String) : Int :=
  match unread_count_display with
  | some u => u
  | none =>
      match unread_count with
      | some u => u
      | none => unread_fallback last_read latest_ts

/-- The processed needle `resolve_user_id` scans with:
`target.strip().removeprefix("@").lower().strip()`. -/
def user_needle (target : String) : String :=
  pstrip (py_lower (remove_at_sign (pstrip target)))

/-- The needle `resolve_conversation_id` computes before calling the finder:
`target.strip().removeprefix("#").strip().lower()`. -/
def conv_resolve_needle (target : String) : String :=
  py_lower (pstrip (remove_hash (pstrip target)))

/-- The needle `find_conversations_by_name` actually scans with (it lowers
and strips its argument again). -/
def conv_scan_needle (target : String) : String :=
  pstrip (py_lower (conv_resolve_needle target))

/-! ### Concrete fixtures used by witnesses and counterexamples -/

/-- A client whose server returns nothing (no users, empty pages). -/
def trivial_client : Client :=
  { users := []
    conv_server := fun _ => { channels := [], next_cursor := "" }
    dm_server := fun _ => { channels := [], next_cursor := "" } }

/-- A file record with no names and a size of exactly 2 MiB. -/
def file_2mb : SlackFile :=
  { title := none, name := none, pretty_type := none, filetype := none
    size := some ⟨2097152, 1⟩ }

/-- A message with empty text, no blocks and one attached 2 MiB file. -/
def msg_one_file : Message :=
  { text := none, blocks := [], files := some [file_2mb], ts := none
    thread_ts := none, reply_count := none, user := none, bot_id := none
    subtype := none, edited := false }

/-- A message with empty text, no blocks and two attached files. -/
def msg_two_files : Message :=
  { text := none, blocks := [], files := some [file_2mb, file_2mb], ts := none
    thread_ts := none, reply_count := none, user := none, bot_id := none
    subtype := none, edited := false }

/-- A message that is a thread parent: three replies, `thread_ts` equal to
its own `ts`. -/
def msg_parent : Message :=
  { text := some "root", blocks := [], files := none, ts := some "1700000000.000100"
    thread_ts := some "1700000000.000100", reply_count := some 3, user := none
    bot_id := none, subtype := none, edited := false }

/-- The same timestamps but zero replies. -/
def msg_no_replies : Message :=
  { text := some "root", blocks := [], files := none, ts := some "1700000000.000100"
    thread_ts := some "1700000000.000100", reply_count := some 0, user := none
    bot_id := none, subtype := none, edited := false }

/-- A server that always hands out the cursor `"A"`: the next-cursor value
repeats starting from the second page. -/
def looping_server : String → PageResp Nat :=
  fun _ => { items := [], next_cursor := "A" }

/-- A single-page conversation directory with three channels all named
`"standup"`. -/
def three_match_client : Client :=
  { users := []
    conv_server := fun _ =>
      { channels :=
          [ { id := some "C001", name := some "standup", is_private := false, user := none }
          , { id := some "C002", name := some "standup", is_private := false, user := none }
          , { id := some "C003", name := some "standup", is_private := true, user := none } ]
        next_cursor := "" }
    dm_server := fun _ => { channels := [], next_cursor := "" } }

/-- A single-page conversation directory with exactly one channel named
`"standup"`, plus a user directory with one active and one deleted `ann`. -/
def small_client : Client :=
  { users :=
      [ { id := some "U001", name := some "ann", profile := none, deleted := true }
      , { id := some "U002", name := some "ann", profile := none, deleted := false } ]
    conv_server := fun _ =>
      { channels :=
          [ { id := some "C010", name := some "standup", is_private := false, user := none }
          , { id := some "C011", name := some "general", is_private := false, user := none } ]
        next_cursor := "" }
    dm_server := fun _ => { channels := [], next_cursor := "" } }

/-- A user directory in which two distinct active users match `ann` and a
third deleted user matches as well. -/
def ambiguous_user_client : Client :=
  { users :=
      [ { id := some "U100", name := some "ann", profile := none, deleted := false }
      , { id := some "U101", name := some "bob",
          profile := some { display_name := some "Ann", real_name := none }, deleted := false }
      , { id := some "U102", name := some "ann", profile := none, deleted := true } ]
    conv_server := fun _ => { channels := [], next_cursor := "" }
    dm_server := fun _ => { channels := [], next_cursor := "" } }

/-- A user directory whose only `ann` matches are deleted. -/
def deleted_only_client : Client :=
  { users :=
      [ { id := some "U200", name := some "ann", profile := none, deleted := true }
      , { id := some "U201", name := some "zoe", profile := none, deleted := false } ]
    conv_server := fun _ => { channels := [], next_cursor := "" }
    dm_server := fun _ => { channels := [], next_cursor := "" } }

/-! ## Helper lemmas -/

/-- Dropping while a predicate that fails on every element changes nothing. -/
theorem dropWhile_eq_self_of_neg {p : Char → Bool} (l : List Char)
    (h : ∀ x ∈ l, p x = false) : l.dropWhile p = l := by
  cases l with
  | nil => rfl
  | cons a t =>
      rw [List.dropWhile_cons, h a (List.mem_cons_self a t)]
      simp

/-- Stripping a list free of whitespace is the identity. -/
theorem pstrip_list_eq_self (l : List Char) (h : ∀ x ∈ l, py_is_space x = false) :
    pstrip_list l = l := by
  unfold pstrip_list
  rw [dropWhile_eq_self_of_neg l h,
    dropWhile_eq_self_of_neg l.reverse (fun x hx => h x (List.mem_reverse.mp hx)),
    List.reverse_reverse]

/-- Stripping a string free of whitespace is the identity. -/
theorem pstrip_eq_self (s : String) (h : ∀ x ∈ s.data, py_is_space x = false) :
    pstrip s = s := by
  unfold pstrip
  rw [pstrip_list_eq_self s.data h]

/-- ID-body characters (A-Z, 0-9) are not whitespace. -/
theorem id_char_not_space {c : Char} (h : id_body_char c = true) :
    py_is_space c = false := by
  cases hc : py_is_space c
  · rfl
  · exfalso
    unfold py_is_space at hc
    simp only [Bool.or_eq_true, beq_iff_eq] at hc
    rcases hc with ((((rfl | rfl) | rfl) | rfl) | rfl) | rfl <;> revert h <;> decide

/-- A string matching the conversation-ID regex contains no whitespace. -/
theorem conv_id_no_space {s : String} (h : conversation_id_match s = true) :
    ∀ x ∈ s.data, py_is_space x = false := by
  unfold conversation_id_match at h
  cases hd : s.data with
  | nil => rw [hd] at h; exact absurd h (by decide)
  | cons c r =>
      rw [hd] at h
      simp only [Bool.and_eq_true, Bool.or_eq_true, beq_iff_eq, List.all_eq_true] at h
      obtain ⟨⟨hc, -⟩, hr⟩ := h
      intro x hx
      rcases List.mem_cons.mp hx with rfl | hx
      · rcases hc with (rfl | rfl) | rfl <;> decide
      · exact id_char_not_space (hr x hx)

/-! ## C7: thread-parent detection -/

/-- C7: in every normalized message the `is_thread_parent` flag is true iff
`reply_count > 0` and the normalized timestamp equals the normalized thread
timestamp (which defaults to the message's own timestamp); concretely,
`reply_count = 3` with `thread_ts = ts` is a parent and `reply_count = 0`
with equal timestamps is not. -/
theorem thread_parent_iff (m : Message) (chat_id : String)
    (um : List (String × User)) :
    ((normalize_message m chat_id um).is_thread_parent = true ↔
      0 < (normalize_message m chat_id um).reply_count ∧
        (normalize_message m chat_id um).ts = (normalize_message m chat_id um).thread_ts) ∧
    (normalize_message m chat_id um).thread_ts = or_str m.thread_ts (or_empty m.ts) ∧
    (normalize_message msg_parent "C1" []).is_thread_parent = true ∧
    (normalize_message msg_no_replies "C1" []).is_thread_parent = false := by
  refine ⟨?_, rfl, by decide, by decide⟩
  simp only [normalize_message, Bool.and_eq_true, bne_iff_ne, ne_eq, beq_iff_eq,
    Nat.pos_iff_ne_zero]

/-! ## C8: unread fallback -/

/-- C8: when a snapshot has neither `unread_count_display` nor
`unread_count`, the unread value is `_unread_fallback`, which is `1` exactly
when both timestamps parse as floats and the latest is strictly greater than
the last-read, and `0` in every other case (absent or unparseable included). -/
theorem unread_fallback_spec (last_read latest_ts : Option String) :
    snapshot_unread none none last_read latest_ts = unread_fallback last_read latest_ts ∧
    (unread_fallback last_read latest_ts = 1 ↔
      ∃ l r, py_float_opt latest_ts = some l ∧ py_float_opt last_read = some r ∧
        pn_lt r l = true) ∧
    (unread_fallback last_read latest_ts = 1 ∨ unread_fallback last_read latest_ts = 0) := by
  refine ⟨rfl, ?_, ?_⟩
  · unfold unread_fallback
    cases hl : py_float_opt latest_ts with
    | none => simp
    | some l =>
        cases hr : py_float_opt last_read with
        | none => simp
        | some r =>
            by_cases hp : pn_lt r l = true
            · simp only [hp, if_true]
              exact ⟨fun _ => ⟨l, r, rfl, rfl, hp⟩, fun _ => trivial⟩
            · simp only [hp, if_false]
              constructor
              · intro h; exact absurd h (by decide)
              · rintro ⟨l', r', hl', hr', hp'⟩
                cases hl'; cases hr'
                exact absurd hp' hp
  · unfold unread_fallback
    cases py_float_opt latest_ts with
    | none => exact Or.inr rfl
    | some l =>
        cases py_float_opt last_read with
        | none => exact Or.inr rfl
        | some r =>
            by_cases hp : pn_lt r l = true
            · exact Or.inl (by simp [hp])
            · exact Or.inr (by simp [hp])

/-! ## C10: resolve_dm_id D-prefix passthrough -/

/-- C10 counterexample: `resolve_dm_id` strips the target first, so the
D-initial target `"David "` comes back as `"David"`, not unchanged. -/
theorem resolve_dm_strip_counterexample :
    resolve_dm_id trivial_client "David " = (.ok "David", 0) ∧
      "David" ≠ "David " := by
  exact ⟨rfl, by decide⟩

/-- C10 (amended): for every target whose stripped form begins with `D`,
`resolve_dm_id` returns that stripped form with zero network calls — no
further shape check is made, so any D-prefixed string passes through. -/
theorem resolve_dm_d_passthrough (c : Client) (target : String)
    (h : starts_with_d (pstrip target) = true) :
    resolve_dm_id c target = (.ok (pstrip target), 0) := by
  unfold resolve_dm_id
  simp [h]

/-- C10 witness: the non-ID name `"Delivery"` passes straight through. -/
theorem resolve_dm_d_passthrough_witness :
    starts_with_d (pstrip "Delivery") = true ∧
      resolve_dm_id trivial_client "Delivery" = (.ok (pstrip "Delivery"), 0) :=
  ⟨by decide, resolve_dm_d_passthrough trivial_client "Delivery" (by decide)⟩

/-! ## C6: canonical conversation IDs short-circuit -/

/-- C6: a target already matching `^[CDG][A-Z0-9]+$` is returned unchanged
by `resolve_conversation_id`, with zero network requests. -/
theorem conversation_id_shape_no_network (c : Client) (target : String)
    (h : conversation_id_match target = true) :
    resolve_conversation_id c target = (.ok target, 0) := by
  have hs : pstrip target = target := pstrip_eq_self target (conv_id_no_space h)
  unfold resolve_conversation_id
  simp [hs, h]

/-- C6 witness: `"C024BE91L"` is returned as-is with zero calls. -/
theorem conversation_id_shape_no_network_witness :
    conversation_id_match "C024BE91L" = true ∧
      resolve_conversation_id trivial_client "C024BE91L" = (.ok "C024BE91L", 0) :=
  ⟨by decide, conversation_id_shape_no_network trivial_client "C024BE91L" (by decide)⟩

/-! ## C1: HTTP >= 400 in call vs call_raw -/

/-- C1 counterexample: a final 404 in `call_raw` is not raised as an error
condition — the raw body text is returned as the result. -/
theorem call_raw_returns_result_on_404 :
    raw_is_error (call_raw "conversations.list" 2 0 [.resp 404 1 "nope"]) = false ∧
      call_raw "conversations.list" 2 0 [.resp 404 1 "nope"] = .body "nope" ∧
      400 ≤ 404 := by
  exact ⟨by decide, by decide, by decide⟩

/-- C1 (amended): in `SlackClient.call` every final response with status
>= 400 — either non-retryable (not 429, not 5xx) at any attempt, or any
status at the retry ceiling — raises the HTTP-error condition carrying the
endpoint and status; `SlackClient.call_raw` instead returns the raw body
text on exactly the same responses and never raises an HTTP-status error. -/
theorem call_http_error_raw_returns_body (method endpoint : String)
    (max_retries attempt status ra : Nat) (body : Option Envelope) (txt : String)
    (rest : List CallAttempt) (rrest : List RawAttempt) (h400 : 400 ≤ status) :
    (status ≠ 429 → status < 500 →
      call method max_retries attempt (.resp status ra body :: rest) =
        .http_error method status) ∧
    (call method max_retries max_retries (.resp status ra body :: rest) =
      .http_error method status) ∧
    (status ≠ 429 → status < 500 →
      call_raw endpoint max_retries attempt (.resp status ra txt :: rrest) = .body txt) ∧
    (call_raw endpoint max_retries max_retries (.resp status ra txt :: rrest) = .body txt) := by
  refine ⟨fun h429 h500 => ?_, ?_, fun h429 h500 => ?_, ?_⟩
  · have c1 : ¬(status = 429 ∧ attempt < max_retries) := fun hc => h429 hc.1
    have c2 : ¬(500 ≤ status ∧ attempt < max_retries) := fun hc => absurd hc.1 (by omega)
    simp [call, c1, c2, h400]
  · have c1 : ¬(status = 429 ∧ max_retries < max_retries) := fun hc => absurd hc.2 (lt_irrefl _)
    have c2 : ¬(500 ≤ status ∧ max_retries < max_retries) := fun hc => absurd hc.2 (lt_irrefl _)
    simp [call, c1, c2, h400]
  · have c1 : ¬(status = 429 ∧ attempt < max_retries) := fun hc => h429 hc.1
    have c2 : ¬(500 ≤ status ∧ attempt < max_retries) := fun hc => absurd hc.1 (by omega)
    simp [call_raw, c1, c2]
  · have c1 : ¬(status = 429 ∧ max_retries < max_retries) := fun hc => absurd hc.2 (lt_irrefl _)
    have c2 : ¬(500 ≤ status ∧ max_retries < max_retries) := fun hc => absurd hc.2 (lt_irrefl _)
    simp [call_raw, c1, c2]

/-- C1 witness: a 404 at the retry ceiling raises the HTTP error in `call`
and returns the body in `call_raw`. -/
theorem call_http_error_raw_returns_body_witness :
    call "users.list" 2 2 [.resp 404 1 none] = .http_error "users.list" 404 ∧
      call_raw "users.list" 2 2 [.resp 404 1 "nope"] = .body "nope" := by
  have h := call_http_error_raw_returns_body "users.list" "users.list" 2 2 404 1 none
    "nope" [] [] (by decide)
  exact ⟨h.2.1, h.2.2.2⟩

/-! ## C2: attachment fallback line -/

/-- A string is an infix of any concatenation surrounding it. -/
theorem data_infix_mid (a b c : String) : b.data <:+: (a ++ b ++ c).data := by
  rw [String.data_append, String.data_append]
  exact List.infix_append _ _ _

/-- A string is a suffix of any concatenation it ends. -/
theorem data_suffix_end (a b : String) : b.data <:+ (a ++ b).data := by
  rw [String.data_append]
  exact List.suffix_append _ _

/-- The size label `_human_bytes` renders for 2,097,152 bytes. -/
theorem human_bytes_2mib : human_bytes ⟨2097152, 1⟩ = "2.0 MB" := by decide

/-- C2 counterexample: on the attachment-only payload with one 2,097,152-byte
file the fallback line is `"📎 file (file, 2.0 MB)"`, which does not contain
the substring `"2 MB"`. -/
theorem fallback_two_mb_counterexample :
    extract_message_text msg_one_file = "📎 file (file, 2.0 MB)" ∧
      ¬ ("2 MB".data <:+: (extract_message_text msg_one_file).data) := by
  exact ⟨rfl, by decide⟩

/-- C2 (amended): for every payload with falsy text and no blocks, one
attached file of size 2,097,152 bytes makes the extracted text the
attachment-fallback line and that line contains the substring `"2.0 MB"`
(the one-decimal rendering, not `"2 MB"`); with exactly two attached files
the line ends with the `" +1 more file"` suffix. -/
theorem fallback_size_label_and_suffix (m : Message) (f g : SlackFile)
    (htext : text_truthy m.text = false) (hblocks : m.blocks = []) :
    (m.files = some [f] → f.size = some ⟨2097152, 1⟩ →
      extract_message_text m = format_file_fallback m.files ∧
      "2.0 MB".data <:+: (extract_message_text m).data) ∧
    (m.files = some [f, g] →
      " +1 more file".data <:+ (extract_message_text m).data) := by
  have hext : extract_message_text m = format_file_fallback m.files := by
    unfold extract_message_text
    rw [htext, hblocks]
    simp
  constructor
  · intro hf hsize
    refine ⟨hext, ?_⟩
    rw [hext, hf]
    have hff : format_file_fallback (some [f]) =
        ("📎 " ++ or_str f.title (or_str f.name "file") ++ " (" ++
          or_str f.pretty_type (or_str f.filetype "file") ++ ", ") ++ ("2.0 MB" ++ ")") := by
      simp only [format_file_fallback, hsize, human_bytes_2mib]
      simp [String.append_assoc, String.append_empty]
    rw [hff, String.data_append, String.data_append]
    exact ⟨_, _, List.append_assoc _ _ _⟩
  · intro hf
    rw [hext, hf]
    simp only [format_file_fallback]
    have hsuffix :
        (if ([g] : List SlackFile).length = 0 then ""
          else " +" ++ toString ([g] : List SlackFile).length ++ " more file" ++
            (if ([g] : List SlackFile).length = 1 then "" else "s")) = " +1 more file" := by
      simp only [List.length_singleton]
      decide
    rw [hsuffix]
    exact data_suffix_end _ _

/-- C2 witness: the concrete one-file and two-file payloads. -/
theorem fallback_size_label_and_suffix_witness :
    "2.0 MB".data <:+: (extract_message_text msg_one_file).data ∧
      " +1 more file".data <:+ (extract_message_text msg_two_files).data :=
  ⟨((fallback_size_label_and_suffix msg_one_file file_2mb file_2mb
      (by decide) rfl).1 rfl rfl).2,
    (fallback_size_label_and_suffix msg_two_files file_2mb file_2mb
      (by decide) rfl).2 rfl⟩

/-! ## C5: numeric timestamp sort -/

/-- The timestamp key order is total. -/
theorem ts_le_total (a b : NormMessage) : ts_le a b = true ∨ ts_le b a = true := by
  unfold ts_le pn_le
  rcases le_total
      ((ts_as_float (some a.ts)).num * ((ts_as_float (some b.ts)).den : Int))
      ((ts_as_float (some b.ts)).num * ((ts_as_float (some a.ts)).den : Int)) with h | h
  · exact Or.inl (decide_eq_true h)
  · exact Or.inr (decide_eq_true h)

/-- A successfully parsed decimal has a positive denominator. -/
theorem parse_dec_core_den_pos (l : List Char) (p : PyNum)
    (h : parse_dec_core l = some p) : 0 < p.den := by
  simp only [parse_dec_core] at h
  split at h
  · split at h
    · exact absurd h (by simp)
    · cases h
      exact Nat.one_pos
  · split at h
    · cases h
      exact pow_pos (by norm_num) _
    · exact absurd h (by simp)
  · exact absurd h (by simp)

/-- A successfully parsed float has a positive denominator. -/
theorem py_float_den_pos (s : String) (p : PyNum) (h : py_float s = some p) :
    0 < p.den := by
  unfold py_float at h
  split at h
  · exact parse_dec_core_den_pos _ _ h
  · rcases Option.map_eq_some'.mp h with ⟨q, hq, rfl⟩
    simpa using parse_dec_core_den_pos _ _ hq
  · exact parse_dec_core_den_pos _ _ h

/-- Every timestamp key has a positive denominator (the default is `0/1`). -/
theorem ts_as_float_den_pos (v : Option String) : 0 < (ts_as_float v).den := by
  cases v with
  | none => exact Nat.one_pos
  | some s =>
      show 0 < ((py_float s).getD ⟨0, 1⟩).den
      cases hp : py_float s with
      | none => exact Nat.one_pos
      | some p => exact py_float_den_pos s p hp

/-- The timestamp key order is transitive. -/
theorem ts_le_trans (a b c : NormMessage) (h1 : ts_le a b = true)
    (h2 : ts_le b c = true) : ts_le a c = true := by
  unfold ts_le pn_le at h1 h2 ⊢
  rw [decide_eq_true_eq] at h1 h2 ⊢
  have hb : (0 : Int) < ((ts_as_float (some b.ts)).den : Int) :=
    Int.natCast_pos.mpr (ts_as_float_den_pos (some b.ts))
  have hc0 : (0 : Int) ≤ ((ts_as_float (some c.ts)).den : Int) := Int.natCast_nonneg _
  have ha0 : (0 : Int) ≤ ((ts_as_float (some a.ts)).den : Int) := Int.natCast_nonneg _
  nlinarith [mul_le_mul_of_nonneg_right h1 hc0, mul_le_mul_of_nonneg_right h2 ha0]

/-- Members of an insertion come from the inserted element or the old list. -/
theorem mem_insert_by_ts {y m : NormMessage} :
    ∀ {l : List NormMessage}, y ∈ insert_by_ts m l → y = m ∨ y ∈ l := by
  intro l
  induction l with
  | nil => intro h; simpa [insert_by_ts] using h
  | cons x xs ih =>
      intro h
      unfold insert_by_ts at h
      split at h
      · rcases List.mem_cons.mp h with rfl | h
        · exact Or.inr (List.mem_cons_self _ _)
        · rcases ih h with rfl | h
          · exact Or.inl rfl
          · exact Or.inr (List.mem_cons_of_mem _ h)
      · rcases List.mem_cons.mp h with rfl | h
        · exact Or.inl rfl
        · exact Or.inr h

/-- Stable insertion preserves sortedness by the timestamp key. -/
theorem pairwise_insert_by_ts (m : NormMessage) :
    ∀ (l : List NormMessage), l.Pairwise (fun a b => ts_le a b = true) →
      (insert_by_ts m l).Pairwise (fun a b => ts_le a b = true) := by
  intro l
  induction l with
  | nil => intro _; simp [insert_by_ts]
  | cons x xs ih =>
      intro h
      rcases List.pairwise_cons.mp h with ⟨hx, hxs⟩
      unfold insert_by_ts
      split
      · refine List.pairwise_cons.mpr ⟨?_, ih hxs⟩
        intro y hy
        rcases mem_insert_by_ts hy with rfl | hy
        · assumption
        · exact hx y hy
      · rename_i hle
        have hmx : ts_le m x = true := by
          rcases ts_le_total x m with h' | h'
          · exact absurd h' hle
          · exact h'
        refine List.pairwise_cons.mpr ⟨?_, h⟩
        intro y hy
        rcases List.mem_cons.mp hy with rfl | hy
        · exact hmx
        · exact ts_le_trans m x y hmx (hx y hy)

/-- The full sort produces a list sorted by the timestamp key. -/
theorem pairwise_sort_by_ts (l : List NormMessage) :
    (sort_by_ts l).Pairwise (fun a b => ts_le a b = true) := by
  unfold sort_by_ts
  suffices hgen : ∀ (l acc : List NormMessage),
      acc.Pairwise (fun a b => ts_le a b = true) →
      (l.foldl (fun acc m => insert_by_ts m acc) acc).Pairwise
        (fun a b => ts_le a b = true) by
    exact hgen l [] List.Pairwise.nil
  intro l
  induction l with
  | nil => intro acc h; exact h
  | cons x xs ih => intro acc h; exact ih _ (pairwise_insert_by_ts x acc h)

/-- C5: `chat_history` output is sorted by numeric (parsed floating-point)
timestamp — the result is pairwise ordered under the float key comparison —
and on the string timestamps `["100.2", "20.5", "100.1"]` the sorted order
is `["20.5", "100.1", "100.2"]`, not the lexical order. -/
theorem history_sorted_numerically :
    (∀ (raw : List Message) (conversation_id : String) (um : List (String × User)),
      (chat_history_messages raw conversation_id um).Pairwise
        (fun a b => ts_le a b = true)) ∧
    (chat_history_messages
        [ts_only_message "100.2", ts_only_message "20.5", ts_only_message "100.1"]
        "C1" []).map (fun m => m.ts) = ["20.5", "100.1", "100.2"] := by
  exact ⟨fun raw cid um => pairwise_sort_by_ts _, by decide⟩

/-! ## C3: pagination terminates on a cursor repeat -/

/-- If the paginator fails to stop within its fuel, then every next-cursor
it saw was nonempty, outside the initial seen set, and distinct from all the
earlier ones: running out of fuel certifies that no cursor repeated. -/
theorem paginate_from_none_no_repeat {α : Type} (server : String → PageResp α) :
    ∀ (fuel page_count : Nat) (cursor : String) (seen : List String) (acc : List α),
      paginate_from server none fuel page_count cursor seen acc = none →
      ∀ k, k < fuel →
        cursor_iter server (k + 1) cursor ≠ "" ∧
        cursor_iter server (k + 1) cursor ∉ seen ∧
        ∀ m, m < k → cursor_iter server (m + 1) cursor ≠ cursor_iter server (k + 1) cursor := by
  intro fuel
  induction fuel with
  | zero => intro pc cursor seen acc h k hk; omega
  | succ fuel ih =>
      intro pc cursor seen acc h k hk
      unfold paginate_from at h
      split at h
      · rename_i _ mp heq
        exact Option.noConfusion heq
      · simp only [] at h
        split at h
        · exact absurd h (by simp)
        · split at h
          · exact absurd h (by simp)
          · rename_i hne hnotmem
            cases k with
            | zero =>
                refine ⟨hne, hnotmem, fun m hm => absurd hm (by omega)⟩
            | succ k' =>
                have hk' : k' < fuel := by omega
                obtain ⟨ha, hb, hdist⟩ := ih (pc + 1) (server cursor).next_cursor
                  ((server cursor).next_cursor :: seen) (acc ++ (server cursor).items) h k' hk'
                refine ⟨ha, fun hmem => hb (List.mem_cons_of_mem _ hmem), ?_⟩
                intro m hm
                cases m with
                | zero =>
                    intro heq
                    exact hb (heq ▸ List.mem_cons_self _ _)
                | succ m' =>
                    have hm' : m' < k' := by omega
                    exact hdist m' hm'

/-- C3: for every deterministic page server whose next-cursor sequence
repeats (`cursor_iter i = cursor_iter j` for some `i < j`), `_paginate`
terminates within `j` pages — the seen-cursor set stops the scan at the
first repeat instead of looping forever. -/
theorem paginate_terminates_on_cursor_repeat {α : Type} (server : String → PageResp α)
    (i j : Nat) (hij : i < j)
    (hrep : cursor_iter server i "" = cursor_iter server j "") :
    ∃ r, paginate server none j = some r := by
  cases e : paginate server none j with
  | some r => exact ⟨r, rfl⟩
  | none =>
      exfalso
      obtain ⟨j', rfl⟩ : ∃ j', j = j' + 1 := by
        cases j with
        | zero => omega
        | succ n => exact ⟨n, rfl⟩
      have hspec := paginate_from_none_no_repeat server (j' + 1) 0 "" [] [] e j' (by omega)
      cases i with
      | zero => exact hspec.1 hrep.symm
      | succ i' => exact hspec.2.2 i' (by omega) hrep

/-- C3 witness: a server that always answers with cursor `"A"` repeats at
pages 1 and 2, and the paginator stops within two pages. -/
theorem paginate_terminates_on_cursor_repeat_witness :
    cursor_iter looping_server 1 "" = cursor_iter looping_server 2 "" ∧
      ∃ r, paginate looping_server none 2 = some r :=
  ⟨rfl, paginate_terminates_on_cursor_repeat looping_server 1 2 (by decide) rfl⟩

/-! ## C4 and C9: resolver uniqueness, ambiguity and the deleted filter -/

/-- Specification of the per-page channel scan: starting below the match
budget it returns the accumulated matches extended by a prefix of the page's
exact matches, returning early (`true`) iff the budget is reached. -/
theorem scan_channels_spec (needle : String) (k : Nat) (chans : List Channel) :
    ∀ acc : List Channel, acc.length < k →
      scan_channels needle k acc chans =
        (acc ++ (conv_matches needle chans).take (k - acc.length),
         decide (k - acc.length ≤ (conv_matches needle chans).length)) := by
  induction chans with
  | nil =>
      intro acc hlt
      have h0 : ¬(k - acc.length ≤ 0) := by omega
      simp [scan_channels, conv_matches, h0]
  | cons ch rest ih =>
      intro acc hlt
      by_cases hm : (conv_name_key ch == needle) = true
      · have hcm : conv_matches needle (ch :: rest) = ch :: conv_matches needle rest := by
          simp [conv_matches, List.filter_cons, hm]
        by_cases hk : k ≤ acc.length + 1
        · have hk1 : k - acc.length = 1 := by omega
          unfold scan_channels
          rw [if_pos hm, if_pos hk, hcm, hk1]
          simp
        · unfold scan_channels
          rw [if_pos hm, if_neg hk, ih (acc ++ [ch]) (by simp; omega), hcm]
          have h2 : k - (acc ++ [ch]).length = k - acc.length - 1 := by
            simp only [List.length_append, List.length_singleton]
            omega
          have h3 : k - acc.length = (k - acc.length - 1) + 1 := by omega
          rw [h2]
          simp only [Prod.mk.injEq]
          constructor
          · rw [h3, List.take_succ_cons]
            simp
          · rw [List.length_cons]
            exact decide_eq_decide.mpr (by omega)
      · have hcm : conv_matches needle (ch :: rest) = conv_matches needle rest := by
          simp [conv_matches, List.filter_cons, hm]
        unfold scan_channels
        rw [if_neg hm, ih acc hlt, hcm]

/-- When the server delivers the whole directory in one page, the finder
returns the first `max_matches` exact matches after one request. -/
theorem find_single_page (c : Client) (name : String) (mp mm : Nat)
    (chans : List Channel)
    (hserver : c.conv_server "" = { channels := chans, next_cursor := "" })
    (hne : pstrip (py_lower name) ≠ "") (hmm : 0 < mm) :
    find_conversations_by_name c name mp mm =
      ((conv_matches (pstrip (py_lower name)) chans).take mm, 1) := by
  unfold find_conversations_by_name
  simp only []
  rw [if_neg hne]
  unfold find_conv_loop
  rw [hserver]
  simp only []
  rw [scan_channels_spec (pstrip (py_lower name)) mm chans [] (by simpa using hmm)]
  simp only [List.nil_append, List.length_nil, Nat.sub_zero]
  by_cases h2 : mm ≤ (conv_matches (pstrip (py_lower name)) chans).length
  · rw [decide_eq_true h2]
  · rw [decide_eq_false h2]
    simp

/-- C4 counterexample: with three conversations exactly named `"standup"`,
resolution is ambiguous but carries only 2 candidates (the finder stops at
`max_matches=2`), not `min(3, 8) = 3`. -/
theorem conversation_ambiguous_candidates_counterexample :
    ambiguous_size (resolve_conversation_id three_match_client "standup").1 = some 2 ∧
      (conv_matches (conv_scan_needle "standup")
        ((three_match_client.conv_server "").channels)).length = 3 ∧
      ¬((2 : Nat) = min 3 8) := by
  exact ⟨rfl, rfl, by decide⟩

/-- A list of length at least two starts with two elements. -/
theorem two_le_length_shape {α : Type} (l : List α) (h : 2 ≤ l.length) :
    ∃ a b t, l = a :: b :: t := by
  cases l with
  | nil => simp at h
  | cons a tl =>
      cases tl with
      | nil => simp at h
      | cons b t => exact ⟨a, b, t, rfl⟩

set_option maxHeartbeats 1600000 in
/-- C4 (amended): a name with exactly one case-insensitive exact match
resolves to that entity's ID, and two or more matches raise an
ambiguous-target error rather than silently picking one, for both user and
conversation resolution; the candidate list length is `min(matches, 8)` for
users but `min(matches, 2)` for conversations, because the conversation scan
stops collecting at `max_matches = 2`. -/
theorem resolution_unique_and_ambiguous (c : Client) (target : String) :
    (user_id_match (pstrip target) = false → user_needle target ≠ "" →
      (∀ u i, c.users.filter (user_matches (user_needle target)) = [u] →
        u.id = some i → i ≠ "" → resolve_user_id c target = (.ok i, 1)) ∧
      (2 ≤ (c.users.filter (user_matches (user_needle target))).length →
        ambiguous_size (resolve_user_id c target).1 =
          some (min (c.users.filter (user_matches (user_needle target))).length 8))) ∧
    (∀ chans : List Channel,
      c.conv_server "" = { channels := chans, next_cursor := "" } →
      conversation_id_match (pstrip target) = false →
      starts_with_at (pstrip target) = false →
      conv_resolve_needle target ≠ "" →
      conv_scan_needle target ≠ "" →
      (∀ ch i, conv_matches (conv_scan_needle target) chans = [ch] →
        ch.id = some i → i ≠ "" → resolve_conversation_id c target = (.ok i, 1)) ∧
      (2 ≤ (conv_matches (conv_scan_needle target) chans).length →
        ambiguous_size (resolve_conversation_id c target).1 =
          some (min (conv_matches (conv_scan_needle target) chans).length 2))) := by
  constructor
  · intro hshape hne
    unfold user_needle at hne
    constructor
    · intro u i hfilter hid hine
      unfold user_needle at hfilter
      unfold resolve_user_id
      simp only [hshape, Bool.false_eq_true, if_false]
      rw [if_neg hne, hfilter]
      simp [hid, hine]
    · intro h2
      unfold user_needle at h2 ⊢
      obtain ⟨a, b, t, hf⟩ := two_le_length_shape _ h2
      unfold resolve_user_id
      simp only [hshape, Bool.false_eq_true, if_false]
      rw [if_neg hne, hf]
      simp only [ambiguous_size, List.length_map, List.length_take, List.length_cons,
        Option.some.injEq]
      omega
  · intro chans hserver hcid hat hne1 hne2
    unfold conv_resolve_needle at hne1
    unfold conv_scan_needle conv_resolve_needle at hne2
    constructor
    · intro ch i hmatch hid hine
      unfold conv_scan_needle conv_resolve_needle at hmatch
      have hfind := find_single_page c (py_lower (pstrip (remove_hash (pstrip target))))
        20 2 chans hserver hne2 (by norm_num)
      rw [hmatch] at hfind
      have ht : List.take 2 [ch] = [ch] := rfl
      rw [ht] at hfind
      unfold resolve_conversation_id
      simp only [hcid, Bool.false_eq_true, if_false, hat]
      rw [if_neg hne1, hfind]
      simp [hid, hine]
    · intro h2
      unfold conv_scan_needle conv_resolve_needle at h2
      obtain ⟨a, b, t, hf⟩ := two_le_length_shape _ h2
      have hfind := find_single_page c (py_lower (pstrip (remove_hash (pstrip target))))
        20 2 chans hserver hne2 (by norm_num)
      rw [hf] at hfind
      have ht : List.take 2 (a :: b :: t) = [a, b] := rfl
      rw [ht] at hfind
      unfold conv_scan_needle conv_resolve_needle
      unfold resolve_conversation_id
      simp only [hcid, Bool.false_eq_true, if_false, hat]
      rw [if_neg hne1, hfind, hf]
      have hmin : min (a :: b :: t).length 2 = 2 := by
        simp only [List.length_cons]
        omega
      rw [hmin]
      simp [ambiguous_size]

/-- C4 witness: concrete directories exercising single-match resolution and
the two ambiguous paths. -/
theorem resolution_unique_and_ambiguous_witness :
    resolve_user_id small_client "ann" = (.ok "U002", 1) ∧
      ambiguous_size (resolve_user_id ambiguous_user_client "ann").1 =
        some (min ((ambiguous_user_client.users.filter
          (user_matches (user_needle "ann"))).length) 8) ∧
      resolve_conversation_id small_client "#standup" = (.ok "C010", 1) ∧
      ambiguous_size (resolve_conversation_id three_match_client "standup").1 =
        some (min ((conv_matches (conv_scan_needle "standup")
          ((three_match_client.conv_server "").channels)).length) 2) := by
  refine ⟨?_, ?_, ?_, ?_⟩
  · exact ((resolution_unique_and_ambiguous small_client "ann").1 (by decide) (by decide)).1
      { id := some "U002", name := some "ann", profile := none, deleted := false } "U002"
      (by decide) rfl (by decide)
  · exact ((resolution_unique_and_ambiguous ambiguous_user_client "ann").1 (by decide)
      (by decide)).2 (by decide)
  · exact ((resolution_unique_and_ambiguous small_client "#standup").2
      ((small_client.conv_server "").channels) rfl (by decide) (by decide) (by decide)
      (by decide)).1
      { id := some "C010", name := some "standup", is_private := false, user := none } "C010"
      (by decide) rfl (by decide)
  · exact ((resolution_unique_and_ambiguous three_match_client "standup").2
      ((three_match_client.conv_server "").channels) rfl (by decide) (by decide) (by decide)
      (by decide)).2 (by decide)

/-- C9: `resolve_user_id` (on a name target) never returns a deleted user: a
successful resolution always names an active directory entry; a directory
whose only exact matches are deleted yields not-found; and when the active
filter leaves exactly one user, resolution returns that user, who is active. -/
theorem resolve_user_skips_deleted (c : Client) (target : String)
    (hshape : user_id_match (pstrip target) = false) :
    (∀ i n, resolve_user_id c target = (.ok i, n) →
      ∃ u ∈ c.users, u.deleted = false ∧ u.id = some i) ∧
    (user_needle target ≠ "" →
      (∀ u ∈ c.users, user_name_hit (user_needle target) u = true → u.deleted = true) →
      ∃ msg, resolve_user_id c target = (.error (.notFound msg), 1)) ∧
    (∀ u i, user_needle target ≠ "" →
      c.users.filter (user_matches (user_needle target)) = [u] →
      u.id = some i → i ≠ "" →
      u.deleted = false ∧ resolve_user_id c target = (.ok i, 1)) := by
  refine ⟨?_, ?_, ?_⟩
  · intro i n hres
    unfold resolve_user_id at hres
    simp only [hshape, Bool.false_eq_true, if_false] at hres
    by_cases hne : pstrip (py_lower (remove_at_sign (pstrip target))) = ""
    · rw [if_pos hne] at hres
      exact absurd hres (by simp)
    · rw [if_neg hne] at hres
      cases hfv : c.users.filter
          (user_matches (pstrip (py_lower (remove_at_sign (pstrip target))))) with
      | nil =>
          rw [hfv] at hres
          exact absurd hres (by simp)
      | cons u tl =>
          cases tl with
          | nil =>
              rw [hfv] at hres
              simp only [] at hres
              have hu : u ∈ c.users.filter
                  (user_matches (pstrip (py_lower (remove_at_sign (pstrip target))))) := by
                rw [hfv]
                exact List.mem_cons_self _ _
              have hmem := List.mem_filter.mp hu
              have hdel : u.deleted = false := by
                have h := hmem.2
                simp only [user_matches, Bool.and_eq_true, Bool.not_eq_true'] at h
                exact h.1
              cases hid : u.id with
              | none =>
                  rw [hid] at hres
                  exact absurd hres (by simp)
              | some j =>
                  rw [hid] at hres
                  simp only [] at hres
                  by_cases hj : j = ""
                  · rw [if_pos hj] at hres
                    exact absurd hres (by simp)
                  · rw [if_neg hj] at hres
                    simp only [Prod.mk.injEq, Except.ok.injEq] at hres
                    exact ⟨u, hmem.1, hdel, hres.1 ▸ hid⟩
          | cons v tl2 =>
              rw [hfv] at hres
              simp at hres
  · intro hne hdel
    unfold user_needle at hne hdel
    have hfil : c.users.filter
        (user_matches (pstrip (py_lower (remove_at_sign (pstrip target))))) = [] := by
      rw [List.filter_eq_nil_iff]
      intro a ha
      simp only [user_matches, Bool.and_eq_true, Bool.not_eq_true']
      rintro ⟨h1, h2⟩
      rw [hdel a ha h2] at h1
      exact absurd h1 (by simp)
    unfold resolve_user_id
    simp only [hshape, Bool.false_eq_true, if_false]
    rw [if_neg hne, hfil]
    exact ⟨_, rfl⟩
  · intro u i hne hfilter hid hine
    constructor
    · have hu : u ∈ c.users.filter (user_matches (user_needle target)) := by
        rw [hfilter]
        exact List.mem_cons_self _ _
      have h := (List.mem_filter.mp hu).2
      simp only [user_matches, Bool.and_eq_true, Bool.not_eq_true'] at h
      exact h.1
    · unfold user_needle at hne hfilter
      unfold resolve_user_id
      simp only [hshape, Bool.false_eq_true, if_false]
      rw [if_neg hne, hfilter]
      simp [hid, hine]

/-- C9 witness: with only deleted `ann`s resolution is not-found; with one
deleted and one active `ann` it returns the active user's ID. -/
theorem resolve_user_skips_deleted_witness :
    (∃ msg, resolve_user_id deleted_only_client "ann" = (.error (.notFound msg), 1)) ∧
      ({ id := some "U002", name := some "ann", profile := none,
          deleted := false } : User).deleted = false ∧
      resolve_user_id small_client "ann" = (.ok "U002", 1) := by
  have h := (resolve_user_skips_deleted small_client "ann" (by decide)).2.2
    { id := some "U002", name := some "ann", profile := none, deleted := false } "U002"
    (by decide) (by decide) rfl (by decide)
  exact ⟨(resolve_user_skips_deleted deleted_only_client "ann" (by decide)).2.1
    (by decide) (by decide), h.1, h.2⟩
